import Mathlib

/-!
Shallow embedding of the `moment` instant-replay recorder (src/main.rs) and
verification of its specification claims.

The program continuously captures the screen, streams raw frames into an
external encoder process that rotates between two on-disk segment slots
(`buffer0.mp4`, `buffer1.mp4`), and on a hotkey edge finalizes the last
segments into a single clip via a concat manifest (`concat_list.txt`).

We model:
* the on-disk state relevant to the program as a record `FS`;
* `save_final_clip` (main.rs lines 250-305) as a pure function over `FS`
  together with an environment `FinalizeEnv` of external outcomes (whether
  `File::create` succeeds, whether the `writeln!` calls succeed, whether the
  timestamp formatting succeeds, whether the concat ffmpeg process can be
  spawned/run);
* `load_settings` (lines 36-71) over a parsed-JSON record `RawConfig`;
* the recording session loop `recording_loop` (lines 138-248) as a
  recursive function over a list of per-segment environments, each carrying
  the per-tick external inputs (capture success, write success, key states,
  shutdown signal);
* the frame pacer (lines 203-215) as a recurrence on the deadline
  `next_frame_time`.

Machine integers: `fps`, `kbps`, etc. are Rust `i32`; casts from `f64` to
`i32` saturate, modelled by `i32sat` on `Int`. Durations are in integer
nanoseconds (`Duration::from_nanos((1_000_000_000 / fps) as u64)`).
-/

namespace Moment

/-- On-disk state visible to the program: the two rotating segment slots
(`buffer0.mp4`, `buffer1.mp4`), each `some mtime` when the file exists with
last-modified time `mtime` (nanosecond ticks), and the transient concat
manifest `concat_list.txt` with its list of listed file names (each rendered
in the real file as a `file` directive line naming the segment). -/
structure FS where
  buffer0 : Option Nat
  buffer1 : Option Nat
  manifest : Option (List String)
  deriving Repr, DecidableEq

/-- Outcomes of the external operations performed by `save_final_clip`:
whether `File::create(list_path)` succeeds, whether the `writeln!` calls
succeed, whether building the output-file timestamp
(`format_description::parse` + `now.format`) succeeds, and whether the
concat ffmpeg process spawns and runs (`Command::status()` returns `Ok`;
note `status()` is `Ok` even when the process exits nonzero). -/
structure FinalizeEnv where
  createOk : Bool
  manifestWriteOk : Bool
  fmtOk : Bool
  concatSpawnOk : Bool
  deriving Repr, DecidableEq

/-- The error cases `save_final_clip` can propagate via `?`. -/
inductive FinErr where
  | createErr
  | writeErr
  | fmtErr
  | concatErr
  deriving Repr, DecidableEq

/-- Result of a `save_final_clip` call: the on-disk state on return, the
manifest lines successfully written during the call (`none` when no manifest
file was created), whether the concat process ran (and so the output clip
was produced), and the propagated error, if any. -/
structure FinResult where
  fsOut : FS
  written : Option (List String)
  clip : Bool
  err : Option FinErr
  deriving Repr, DecidableEq

/-- main.rs lines 257-270: the `match (b0, b1)` ordering the two segment
slots into the concat list. Both present: oldest modification time first
(strict `<`; ties fall to the `else` branch listing `buffer1.mp4` first);
exactly one present: that one; neither: no list (the function returns `Ok`
immediately). -/
def orderedSegments (b0 b1 : Option Nat) : Option (List String) :=
  match b0, b1 with
  | some m0, some m1 =>
      some (if m0 < m1 then ["buffer0.mp4", "buffer1.mp4"]
            else ["buffer1.mp4", "buffer0.mp4"])
  | some _, none => some ["buffer0.mp4"]
  | none, some _ => some ["buffer1.mp4"]
  | none, none => none

/-- main.rs lines 250-305, `save_final_clip`. Steps, in source order:
inspect the two slots and build the ordered list (or return `Ok` when both
are absent); `File::create(list_path)?`; the `writeln!` loop (on failure the
manifest file exists with incomplete contents and the error propagates);
`format_description::parse(..)?` / `now.format(..)?`; spawn the concat
process with `.status()?` (on spawn failure the error propagates before the
manifest delete); only then `remove_file(list_path)` (best-effort) and
return `Ok`. The `beep` calls are pure side signals and are not modelled. -/
def save_final_clip (env : FinalizeEnv) (fs : FS) : FinResult :=
  match orderedSegments fs.buffer0 fs.buffer1 with
  | none => { fsOut := fs, written := none, clip := false, err := none }
  | some list =>
    if env.createOk = false then
      { fsOut := fs, written := none, clip := false, err := some .createErr }
    else if env.manifestWriteOk = false then
      -- the file was created; the first writeln failed, so its contents
      -- are incomplete (modelled as the empty prefix) and the error returns
      { fsOut := { fs with manifest := some [] }, written := some [],
        clip := false, err := some .writeErr }
    else if env.fmtOk = false then
      { fsOut := { fs with manifest := some list }, written := some list,
        clip := false, err := some .fmtErr }
    else if env.concatSpawnOk = false then
      { fsOut := { fs with manifest := some list }, written := some list,
        clip := false, err := some .concatErr }
    else
      { fsOut := { fs with manifest := none }, written := some list,
        clip := true, err := none }

/-- main.rs lines 91-92 as a state transform: `remove_file` on one of the
program's file names, errors ignored. -/
def remove_file (name : String) (fs : FS) : FS :=
  if name = "buffer0.mp4" then { fs with buffer0 := none }
  else if name = "buffer1.mp4" then { fs with buffer1 := none }
  else if name = "concat_list.txt" then { fs with manifest := none }
  else fs

/-- main.rs lines 91-92: at startup, before the recording thread (and hence
the first encoder process) starts, `buffer1.mp4` then `buffer0.mp4` are
removed. -/
def startupCleanup (fs : FS) : FS :=
  remove_file "buffer0.mp4" (remove_file "buffer1.mp4" fs)

/-! ### Configuration loading (main.rs lines 36-71) -/

/-- The hotkey identifiers this program uses, a fragment of the
`device_query::Keycode` enumeration (external crate): the default/config
save key, plus `F1` and `LControl` forming the fixed abort combination. -/
inductive Keycode where
  | F10
  | F1
  | F2
  | LControl
  deriving Repr, DecidableEq

/-- `Keycode::from_str` (external crate `device_query`), restricted to the
identifiers modelled by `Keycode`; any other string is a parse error. -/
def keycodeFromStr (s : String) : Option Keycode :=
  if s = "F10" then some .F10
  else if s = "F1" then some .F1
  else if s = "F2" then some .F2
  else if s = "LControl" then some .LControl
  else none

/-- A successfully JSON-parsed `ack.cfg` as seen through the two accessors
`get_num` / `get_str` of `load_settings`: each numeric field is `some v`
when present and numeric, the key field `some s` when present and a string.
JSON numbers are modelled at their integer values (exact in `f64` for the
magnitudes of interest). -/
structure RawConfig where
  time : Option Int
  fps : Option Int
  kbps : Option Int
  encoder : Option Int
  key : Option String
  deriving Repr, DecidableEq

/-- The program settings stored into the `config` module statics. -/
structure Settings where
  key : Keycode
  fps : Int
  kbps : Int
  time : Int
  encoder : Int
  deriving Repr, DecidableEq

/-- Rust `f64 as i32` saturating cast at integer values. -/
def i32sat (x : Int) : Int := max (-(2 ^ 31)) (min (2 ^ 31 - 1) x)

/-- main.rs lines 36-71, `load_settings`, on an already-parsed config: each
field fetched with `?`; `kbps` is multiplied by 1000 before the `as i32`
cast; `encoder` is `clamp(0., 3.)`-ed then cast; the key name goes through
`Keycode::from_str`. -/
def load_settings (c : RawConfig) : Except String Settings :=
  match c.time with
  | none => .error "Missing time"
  | some time =>
  match c.fps with
  | none => .error "Missing fps"
  | some fps =>
  match c.kbps with
  | none => .error "Missing kbps"
  | some kbps =>
  match c.encoder with
  | none => .error "Missing encoder"
  | some encoder =>
  match c.key with
  | none => .error "Missing key"
  | some keyName =>
  match keycodeFromStr keyName with
  | none => .error "Invalid key"
  | some key =>
    .ok { key := key
          fps := i32sat fps
          kbps := i32sat (kbps * 1000)
          time := i32sat time
          encoder := min 3 (max 0 encoder) }

/-! ### Frame pacer (main.rs lines 159, 203-215) -/

/-- `Duration::from_nanos((1_000_000_000 / fps) as u64)` (line 159): the
frame interval in whole nanoseconds, by `i32` (truncating) division. -/
def frameDurationNs (fps : Nat) : Nat := 1000000000 / fps

/-- One pacing prologue (lines 207-215): given the current time and
`next_frame_time`, sleep/busy-poll until the deadline when it is in the
future (so the tick starts at `max now deadline`), then advance the
deadline by the fixed frame interval unconditionally. Returns
(tick start time, new deadline). -/
def paceTick (fps now deadline : Nat) : Nat × Nat :=
  (max now deadline, deadline + frameDurationNs fps)

/-- The pacer iterated `n` ticks from start time `t0`
(`next_frame_time = Instant::now()`, line 203), where `body k` is the time
the `k`-th tick body (capture, write, key polling) takes. Returns the
current time and the current deadline after `n` ticks. -/
def runPacer (fps t0 : Nat) (body : Nat → Nat) : Nat → Nat × Nat
  | 0 => (t0, t0)
  | n + 1 =>
      let p := runPacer fps t0 body n
      let q := paceTick fps p.1 p.2
      (q.1 + body n, q.2)

/-! ### Recording session loop (main.rs lines 138-248) -/

/-- External inputs observed during one tick of the streaming loop, in the
order the code consults them: whether `capture_frame()` returned `Ok`,
whether `stdin.write_all` succeeded (consulted only when a frame was
captured), whether `F1`+`LControl` are both down, whether the shutdown
channel has a message (`rx.try_recv().is_ok()`), and whether the
configured save key is down. -/
structure TickInput where
  captureOk : Bool
  writeOk : Bool
  abortCombo : Bool
  shutdown : Bool
  captureKey : Bool
  deriving Repr, DecidableEq

/-- How the inner streaming loop of `recording_loop` ends (or that the
supplied input trace ran out while still streaming). -/
inductive BreakReason where
  | writeFail
  | abortNow
  | shutdownNow
  | hotkeyEdge
  | exhausted
  deriving Repr, DecidableEq

/-- main.rs lines 206-241, the inner streaming loop: per tick, in order —
write the captured frame and `break` on write failure (lines 217-224);
`return Ok(())` on the `F1`+`LControl` abort combination (lines 227-230);
`break 'main_loop` when the shutdown channel has a message (lines 232-234);
`break` on a rising edge of the save key (`pressed && !last`, lines
236-239); otherwise record the key state in `last_ckey_state` and loop.
Returns the break reason and the unconsumed inputs. -/
def streamSegment : Bool → List TickInput → BreakReason × List TickInput
  | _, [] => (.exhausted, [])
  | last, t :: rest =>
      if t.captureOk && !t.writeOk then (.writeFail, rest)
      else if t.abortCombo then (.abortNow, rest)
      else if t.shutdown then (.shutdownNow, rest)
      else if t.captureKey && !last then (.hotkeyEdge, rest)
      else streamSegment t.captureKey rest

/-- Externally visible actions of the session loop, in the order they are
performed: a successful encoder spawn (line 162), closing the encoder's
input stream (`drop(stdin)`, line 243), waiting on the encoder process
(line 244), and invoking `save_final_clip` (line 245). -/
inductive Ev where
  | spawnEncoder
  | closeStdin
  | waitChild
  | runFinalize
  deriving Repr, DecidableEq, BEq

/-- How a `recording_loop` run ends: `Ok(())` (abort combo or shutdown),
an encoder spawn error propagated by `?` (line 198), a `save_final_clip`
error propagated by `?` (line 245), or the supplied environment ran out
while the session was still going. -/
inductive SessionResult where
  | ok
  | spawnErr
  | finalizeErr
  | running
  deriving Repr, DecidableEq

/-- External environment for one segment iteration of the outer
`'main_loop`: whether the encoder process spawns, the tick inputs streamed
to the inner loop, and — when this segment ends in a finalize — the
finalize environment and the on-disk segment state the (external) encoder
has produced by then. -/
structure SegEnv where
  spawnOk : Bool
  ticks : List TickInput
  fin : FinalizeEnv
  fs : FS
  deriving Repr, DecidableEq

/-- main.rs lines 161-247, the outer `'main_loop` of `recording_loop`,
driven by one `SegEnv` per segment iteration. Spawn failure propagates
(`.spawn()?`). A `writeFail` or `hotkeyEdge` break falls through to
`drop(stdin); child.wait(); save_final_clip()?`: a finalize error
propagates and ends the loop, otherwise the next iteration begins. The
abort combination returns `Ok` from inside the inner loop and
`break 'main_loop` on shutdown leaves the outer loop; neither path reaches
the close/wait/finalize sequence. Returns the session result and the event
trace. -/
def recording_loop : List SegEnv → SessionResult × List Ev
  | [] => (.running, [])
  | seg :: rest =>
      if seg.spawnOk = false then (.spawnErr, [])
      else
        match (streamSegment false seg.ticks).1 with
        | .exhausted => (.running, [.spawnEncoder])
        | .abortNow => (.ok, [.spawnEncoder])
        | .shutdownNow => (.ok, [.spawnEncoder])
        | .writeFail =>
            if (save_final_clip seg.fin seg.fs).err.isSome then
              (.finalizeErr, [.spawnEncoder, .closeStdin, .waitChild, .runFinalize])
            else
              let r := recording_loop rest
              (r.1, [.spawnEncoder, .closeStdin, .waitChild, .runFinalize] ++ r.2)
        | .hotkeyEdge =>
            if (save_final_clip seg.fin seg.fs).err.isSome then
              (.finalizeErr, [.spawnEncoder, .closeStdin, .waitChild, .runFinalize])
            else
              let r := recording_loop rest
              (r.1, [.spawnEncoder, .closeStdin, .waitChild, .runFinalize] ++ r.2)

/-! ### Concrete fixtures used by witnesses and counterexamples -/

/-- A tick on which everything is normal and the save key is down. -/
def heldTick : TickInput :=
  { captureOk := true, writeOk := true, abortCombo := false,
    shutdown := false, captureKey := true }

/-- A tick on which everything is normal and the save key is up. -/
def idleTick : TickInput :=
  { captureOk := true, writeOk := true, abortCombo := false,
    shutdown := false, captureKey := false }

/-- A tick on which a frame is captured but the write to the encoder's
input stream fails. -/
def writeFailTick : TickInput :=
  { captureOk := true, writeOk := false, abortCombo := false,
    shutdown := false, captureKey := false }

/-- A finalize environment in which every external step succeeds. -/
def goodFin : FinalizeEnv :=
  { createOk := true, manifestWriteOk := true, fmtOk := true, concatSpawnOk := true }

/-- A finalize environment in which the concat ffmpeg process fails to
spawn (`Command::status()` returns `Err`). -/
def badFin : FinalizeEnv :=
  { createOk := true, manifestWriteOk := true, fmtOk := true, concatSpawnOk := false }

/-- A disk state with only slot 0 present. -/
def fsOne : FS := { buffer0 := some 5, buffer1 := none, manifest := none }

/-- The documented default configuration
`{time:10, fps:60, kbps:10000, key:"F10", encoder:0}` after parsing. -/
def cfgGood : RawConfig :=
  { time := some 10, fps := some 60, kbps := some 10000,
    encoder := some 0, key := some "F10" }

/-- A parsed configuration whose `kbps` times 1000 exceeds `i32::MAX`. -/
def cfgBig : RawConfig :=
  { time := some 10, fps := some 60, kbps := some 2147484,
    encoder := some 0, key := some "F10" }

/-! ### Claims about the Clip Finalizer -/

/-- C1 (counterexample): with both the manifest write and the timestamp
build succeeding but the concat process failing to spawn, on a disk holding
only slot 0, `save_final_clip` creates the manifest (`written` is `some`)
and returns with the manifest still on disk — contradicting the claim that
the manifest never exists after the call returns on every failure path. -/
theorem save_final_clip_manifest_survives_concat_spawn_failure :
    ((save_final_clip badFin fsOne).written.isSome = true)
  ∧ ((save_final_clip badFin fsOne).fsOut.manifest.isSome = true) := by
  decide

/-- C1 (amended): if a manifest file is created during the call and the
manifest writes, the timestamp build, and the concat process launch all
succeed, the manifest no longer exists when `save_final_clip` returns (it
is deleted regardless of the concat process's exit status); on a
manifest-write, timestamp, or concat-spawn failure the error propagates
before the delete and the manifest is left on disk. -/
theorem save_final_clip_deletes_manifest_when_concat_runs
    (env : FinalizeEnv) (fs : FS)
    (hcreated : (save_final_clip env fs).written.isSome = true)
    (hw : env.manifestWriteOk = true) (hf : env.fmtOk = true)
    (hs : env.concatSpawnOk = true) :
    (save_final_clip env fs).fsOut.manifest = none := by
  unfold save_final_clip at hcreated ⊢
  cases h : orderedSegments fs.buffer0 fs.buffer1 with
  | none => rw [h] at hcreated; simp at hcreated
  | some list =>
      rw [h] at hcreated
      by_cases hco : env.createOk = false
      · simp [hco] at hcreated
      · simp [hco, hw, hf, hs]

/-- C1 (witness): the amended theorem applied to a run in which every
external step succeeds. -/
theorem save_final_clip_deletes_manifest_when_concat_runs_witness :
    (save_final_clip goodFin fsOne).fsOut.manifest = none :=
  save_final_clip_deletes_manifest_when_concat_runs goodFin fsOne (by decide)
    rfl rfl rfl

/-- C4: when the manifest is created and written successfully — given both
slots with distinct modification times it lists the earlier-modified file
first and the later second; given exactly one slot it lists exactly that
one; given neither slot, `save_final_clip` returns success (`err = none`)
having produced no manifest and no clip. -/
theorem save_final_clip_manifest_cases (env : FinalizeEnv) (fs : FS) :
    (∀ m0 m1, env.createOk = true → env.manifestWriteOk = true →
        fs.buffer0 = some m0 → fs.buffer1 = some m1 → m0 < m1 →
        (save_final_clip env fs).written = some ["buffer0.mp4", "buffer1.mp4"])
  ∧ (∀ m0 m1, env.createOk = true → env.manifestWriteOk = true →
        fs.buffer0 = some m0 → fs.buffer1 = some m1 → m1 < m0 →
        (save_final_clip env fs).written = some ["buffer1.mp4", "buffer0.mp4"])
  ∧ (∀ m0, env.createOk = true → env.manifestWriteOk = true →
        fs.buffer0 = some m0 → fs.buffer1 = none →
        (save_final_clip env fs).written = some ["buffer0.mp4"])
  ∧ (∀ m1, env.createOk = true → env.manifestWriteOk = true →
        fs.buffer0 = none → fs.buffer1 = some m1 →
        (save_final_clip env fs).written = some ["buffer1.mp4"])
  ∧ (fs.buffer0 = none → fs.buffer1 = none →
        save_final_clip env fs
          = { fsOut := fs, written := none, clip := false, err := none }) := by
  obtain ⟨ec, ew, ef, es⟩ := env
  refine ⟨?_, ?_, ?_, ?_, ?_⟩
  · intro m0 m1 hc hw h0 h1 hlt
    subst hc; subst hw
    cases ef <;> cases es <;>
      simp [save_final_clip, orderedSegments, h0, h1, hlt]
  · intro m0 m1 hc hw h0 h1 hlt
    subst hc; subst hw
    cases ef <;> cases es <;>
      simp [save_final_clip, orderedSegments, h0, h1,
        Nat.not_lt.mpr (Nat.le_of_lt hlt)]
  · intro m0 hc hw h0 h1
    subst hc; subst hw
    cases ef <;> cases es <;>
      simp [save_final_clip, orderedSegments, h0, h1]
  · intro m1 hc hw h0 h1
    subst hc; subst hw
    cases ef <;> cases es <;>
      simp [save_final_clip, orderedSegments, h0, h1]
  · intro h0 h1
    simp [save_final_clip, orderedSegments, h0, h1]

/-- C4 (witness): with slot 0 modified at time 1 and slot 1 at time 2, a
successful run writes the manifest listing slot 0 first. -/
theorem save_final_clip_manifest_cases_witness :
    (save_final_clip goodFin
        { buffer0 := some 1, buffer1 := some 2, manifest := none }).written
      = some ["buffer0.mp4", "buffer1.mp4"] :=
  (save_final_clip_manifest_cases goodFin
      { buffer0 := some 1, buffer1 := some 2, manifest := none }).1
    1 2 rfl rfl rfl rfl (by decide)

/-- C9: when both slots carry exactly equal modification times, the strict
`m0 < m1` comparison fails and the `else` branch lists `buffer1.mp4` first
and `buffer0.mp4` second in the written manifest. -/
theorem save_final_clip_equal_mtimes (env : FinalizeEnv) (fs : FS) (m : Nat)
    (hc : env.createOk = true) (hw : env.manifestWriteOk = true)
    (h0 : fs.buffer0 = some m) (h1 : fs.buffer1 = some m) :
    (save_final_clip env fs).written = some ["buffer1.mp4", "buffer0.mp4"] := by
  obtain ⟨ec, ew, ef, es⟩ := env
  simp only at hc hw
  subst hc; subst hw
  cases ef <;> cases es <;>
    simp [save_final_clip, orderedSegments, h0, h1]

/-- C9 (witness): equal modification times 7 and 7. -/
theorem save_final_clip_equal_mtimes_witness :
    (save_final_clip goodFin
        { buffer0 := some 7, buffer1 := some 7, manifest := none }).written
      = some ["buffer1.mp4", "buffer0.mp4"] :=
  save_final_clip_equal_mtimes goodFin
    { buffer0 := some 7, buffer1 := some 7, manifest := none } 7 rfl rfl rfl rfl

/-- C10: whatever segment files a previous run left on disk, the startup
cleanup (lines 91-92, run before the recording thread spawns its first
encoder) deletes both slots, and a finalize performed on the resulting disk
state writes no manifest and produces no clip from leftover footage. -/
theorem startupCleanup_clears_segments (fs : FS) (env : FinalizeEnv) :
    (startupCleanup fs).buffer0 = none
  ∧ (startupCleanup fs).buffer1 = none
  ∧ (save_final_clip env (startupCleanup fs)).written = none
  ∧ (save_final_clip env (startupCleanup fs)).clip = false := by
  refine ⟨?_, ?_, ?_, ?_⟩ <;>
    simp [startupCleanup, remove_file, save_final_clip, orderedSegments]

/-! ### Claims about the recording session loop -/

/-- C2 (counterexample): a run of two available segment iterations in which
the first segment ends on a save-key edge and the concat process then fails
to spawn. The claim says the session proceeds to spawn the next segment
regardless; instead `recording_loop` propagates the `save_final_clip` error
(`?` on line 245) and ends with `finalizeErr`, having spawned only the one
encoder. -/
theorem recording_loop_concat_failure_terminates_session :
    (recording_loop
        [{ spawnOk := true, ticks := [heldTick], fin := badFin, fs := fsOne },
         { spawnOk := true, ticks := [heldTick], fin := goodFin, fs := fsOne }]).1
      = SessionResult.finalizeErr
  ∧ (recording_loop
        [{ spawnOk := true, ticks := [heldTick], fin := badFin, fs := fsOne },
         { spawnOk := true, ticks := [heldTick], fin := goodFin, fs := fsOne }]).2.count
      Ev.spawnEncoder = 1 := by
  decide

/-- C2 (amended): when a segment ends in a finalize (save-key edge or frame
write failure) and `save_final_clip` fails — in particular when the concat
process fails to spawn or run — the error propagates out of
`recording_loop` and the session terminates with `finalizeErr`; no next
segment is spawned. The error is surfaced as the fatal-error dialog by the
caller rather than absorbed. -/
theorem recording_loop_finalize_error_propagates (seg : SegEnv)
    (rest : List SegEnv) (hspawn : seg.spawnOk = true)
    (hbrk : (streamSegment false seg.ticks).1 = BreakReason.hotkeyEdge
          ∨ (streamSegment false seg.ticks).1 = BreakReason.writeFail)
    (herr : (save_final_clip seg.fin seg.fs).err.isSome = true) :
    recording_loop (seg :: rest)
      = (.finalizeErr, [.spawnEncoder, .closeStdin, .waitChild, .runFinalize]) := by
  unfold recording_loop
  rcases hbrk with h | h <;> simp [hspawn, h, herr]

/-- C2 (witness): the amended theorem at the counterexample's first
segment. -/
theorem recording_loop_finalize_error_propagates_witness :
    recording_loop [{ spawnOk := true, ticks := [heldTick], fin := badFin, fs := fsOne }]
      = (.finalizeErr, [.spawnEncoder, .closeStdin, .waitChild, .runFinalize]) :=
  recording_loop_finalize_error_propagates
    { spawnOk := true, ticks := [heldTick], fin := badFin, fs := fsOne } []
    rfl (Or.inl (by decide)) (by decide)

/-- C3 (counterexample): a run whose save key is down at every tick (one
continuous hold spanning two segment iterations, everything else normal).
The claim says exactly one finalize request is triggered; instead, because
`last_ckey_state` is re-initialized to `false` at each segment start (line
204 is inside `'main_loop`), the still-held key re-triggers at the first
tick of the next segment and two finalizes run. -/
theorem recording_loop_held_key_refires_per_segment :
    heldTick.captureKey = true
  ∧ (recording_loop
        [{ spawnOk := true, ticks := [heldTick], fin := goodFin, fs := fsOne },
         { spawnOk := true, ticks := [heldTick], fin := goodFin, fs := fsOne }]).2.count
      Ev.runFinalize = 2 := by
  decide

/-- C3 (amended): within a single segment the save-key edge detector fires
only on a false-to-true transition: if the key is already down when the
segment's streaming loop starts tracking it (`last = true`) and stays down,
no finalize is triggered for the rest of the segment; a segment whose
initial tracked state is `false` fires exactly once, at the first held
tick; and after an up tick a renewed press fires exactly once more. Across
segments, however, the tracked state restarts at `false`, so a key still
held when the next segment begins triggers one further finalize per
segment. Here `t` is any tick with the key down and no other break
condition, `u` the same with the key up. -/
theorem streamSegment_rising_edge_only (t u : TickInput) (n : Nat)
    (htw : (t.captureOk && !t.writeOk) = false) (hta : t.abortCombo = false)
    (hts : t.shutdown = false) (htk : t.captureKey = true)
    (huw : (u.captureOk && !u.writeOk) = false) (hua : u.abortCombo = false)
    (hus : u.shutdown = false) (huk : u.captureKey = false) :
    (streamSegment true (List.replicate n t) = (.exhausted, []))
  ∧ (∀ ts, streamSegment false (t :: ts) = (.hotkeyEdge, ts))
  ∧ (∀ last ts, streamSegment last (u :: t :: ts) = (.hotkeyEdge, ts)) := by
  have hheld : ∀ ts, streamSegment false (t :: ts) = (.hotkeyEdge, ts) := by
    intro ts
    simp [streamSegment, htw, hta, hts, htk]
  refine ⟨?_, hheld, ?_⟩
  · induction n with
    | zero => simp [streamSegment]
    | succ k ih =>
        rw [List.replicate_succ]
        simp only [streamSegment, htw, hta, hts, htk]
        simpa using ih
  · intro last ts
    simp [streamSegment, huw, hua, hus, huk, htw, hta, hts, htk]

/-- C3 (witness): the amended theorem at the all-normal held and idle
ticks, with a three-tick hold. -/
theorem streamSegment_rising_edge_only_witness :
    streamSegment true (List.replicate 3 heldTick) = (.exhausted, []) :=
  (streamSegment_rising_edge_only heldTick idleTick 3
    rfl rfl rfl rfl rfl rfl rfl rfl).1

/-- C6: when the inner streaming loop of a segment observes the shutdown
message (`rx.try_recv().is_ok()`, line 232), `break 'main_loop` leaves the
whole session loop: the run returns `Ok`, `save_final_clip` is never
invoked for the in-progress segment, and no further encoder process is
spawned afterward — the trace holds exactly the one spawn of the segment
that was interrupted. -/
theorem recording_loop_shutdown_exits (seg : SegEnv) (rest : List SegEnv)
    (hspawn : seg.spawnOk = true)
    (hsd : (streamSegment false seg.ticks).1 = BreakReason.shutdownNow) :
    recording_loop (seg :: rest) = (.ok, [.spawnEncoder])
  ∧ (recording_loop (seg :: rest)).2.count Ev.runFinalize = 0
  ∧ (recording_loop (seg :: rest)).2.count Ev.spawnEncoder = 1 := by
  have h : recording_loop (seg :: rest) = (.ok, [.spawnEncoder]) := by
    unfold recording_loop
    simp [hspawn, hsd]
  refine ⟨h, ?_, ?_⟩ <;> rw [h] <;> decide

/-- C6 (witness): a segment whose second tick carries the shutdown signal,
with two more segment environments available that are never used. -/
theorem recording_loop_shutdown_exits_witness :
    recording_loop
        [{ spawnOk := true,
           ticks := [idleTick,
                     { captureOk := true, writeOk := true, abortCombo := false,
                       shutdown := true, captureKey := false }],
           fin := goodFin, fs := fsOne },
         { spawnOk := true, ticks := [heldTick], fin := goodFin, fs := fsOne }]
      = (.ok, [.spawnEncoder]) :=
  (recording_loop_shutdown_exits
    { spawnOk := true,
      ticks := [idleTick,
                { captureOk := true, writeOk := true, abortCombo := false,
                  shutdown := true, captureKey := false }],
      fin := goodFin, fs := fsOne }
    [{ spawnOk := true, ticks := [heldTick], fin := goodFin, fs := fsOne }]
    rfl (by decide)).1

/-- C7 (counterexample): a frame-write failure ends the segment and the
close/wait/finalize sequence runs, but when the finalize itself fails (the
concat process does not spawn) the session does not begin the next segment:
the run ends with `finalizeErr` and only one encoder was ever spawned,
although a second segment environment was available. -/
theorem recording_loop_write_failure_without_next_segment :
    (recording_loop
        [{ spawnOk := true, ticks := [writeFailTick], fin := badFin, fs := fsOne },
         { spawnOk := true, ticks := [idleTick], fin := goodFin, fs := fsOne }]).1
      = SessionResult.finalizeErr
  ∧ (recording_loop
        [{ spawnOk := true, ticks := [writeFailTick], fin := badFin, fs := fsOne },
         { spawnOk := true, ticks := [idleTick], fin := goodFin, fs := fsOne }]).2.count
      Ev.spawnEncoder = 1 := by
  decide

/-- C7 (amended): a failure to write a captured frame to the encoder's
input stream ends the current segment, not the session: the input stream is
closed, the encoder process is waited on, and `save_final_clip` is invoked;
provided that finalize succeeds, the session continues with the next
segment iteration (a finalize failure instead propagates and terminates the
session). -/
theorem recording_loop_write_failure_ends_segment (seg : SegEnv)
    (rest : List SegEnv) (hspawn : seg.spawnOk = true)
    (hbrk : (streamSegment false seg.ticks).1 = BreakReason.writeFail)
    (hok : (save_final_clip seg.fin seg.fs).err = none) :
    recording_loop (seg :: rest)
      = ((recording_loop rest).1,
         [.spawnEncoder, .closeStdin, .waitChild, .runFinalize]
           ++ (recording_loop rest).2) := by
  generalize hr : recording_loop rest = r
  unfold recording_loop
  simp [hspawn, hbrk, hok, hr]

/-- C7 (witness): after a write failure with a successful finalize, the
next segment's spawn appears in the trace. -/
theorem recording_loop_write_failure_ends_segment_witness :
    recording_loop
        [{ spawnOk := true, ticks := [writeFailTick], fin := goodFin, fs := fsOne },
         { spawnOk := true, ticks := [idleTick], fin := goodFin, fs := fsOne }]
      = ((recording_loop
            [{ spawnOk := true, ticks := [idleTick], fin := goodFin, fs := fsOne }]).1,
         [.spawnEncoder, .closeStdin, .waitChild, .runFinalize]
           ++ (recording_loop
                [{ spawnOk := true, ticks := [idleTick], fin := goodFin, fs := fsOne }]).2) :=
  recording_loop_write_failure_ends_segment
    { spawnOk := true, ticks := [writeFailTick], fin := goodFin, fs := fsOne }
    [{ spawnOk := true, ticks := [idleTick], fin := goodFin, fs := fsOne }]
    rfl (by decide) (by decide)

/-! ### Claims about the frame pacer -/

/-- C5 (counterexample): the claim says consecutive deadlines are spaced at
exactly 1/R seconds; a spacing of `s` nanoseconds equals exactly 1/R
seconds iff `s * R = 10^9`. At the target rate R = 60 (a positive integer,
and the program's default), the deadline advance is the truncated
`1_000_000_000 / 60 = 16_666_666` ns, and `16_666_666 * 60 = 999_999_960`,
so the spacing is not exactly 1/60 s. -/
theorem pacer_spacing_not_exact_at_60 :
    0 < 60
  ∧ ((runPacer 60 0 (fun _ => 0) 1).2 - (runPacer 60 0 (fun _ => 0) 0).2) * 60
      ≠ 1000000000 := by
  decide

/-- C5 (amended): for every target rate R with `0 < R` and `R ≤ 10^9`, and
whatever time each tick body takes, the pacer's deadline sequence is
strictly increasing and consecutive deadlines are spaced at exactly
`⌊10^9 / R⌋` nanoseconds — the truncated integer frame interval, which
equals exactly 1/R seconds only when R divides 10^9; the deadline after `n`
ticks is the closed form `t0 + n * ⌊10^9 / R⌋`, independent of the tick
body durations, so pacing does not drift when frame production is slow. -/
theorem runPacer_deadline_spacing (fps t0 n : Nat) (body : Nat → Nat)
    (hpos : 0 < fps) (hle : fps ≤ 1000000000) :
    ((runPacer fps t0 body n).2 = t0 + n * frameDurationNs fps)
  ∧ ((runPacer fps t0 body (n + 1)).2
      = (runPacer fps t0 body n).2 + frameDurationNs fps)
  ∧ ((runPacer fps t0 body n).2 < (runPacer fps t0 body (n + 1)).2) := by
  have hd : 0 < frameDurationNs fps := Nat.div_pos hle hpos
  have key : ∀ m, (runPacer fps t0 body m).2 = t0 + m * frameDurationNs fps := by
    intro m
    induction m with
    | zero => simp [runPacer]
    | succ k ih =>
        simp only [runPacer, paceTick, ih]
        ring
  refine ⟨key n, ?_, ?_⟩
  · rw [key n, key (n + 1)]
    ring
  · rw [key n, key (n + 1)]
    have h2 : (n + 1) * frameDurationNs fps
        = n * frameDurationNs fps + frameDurationNs fps := by ring
    omega

/-- C5 (witness): the amended theorem at R = 60 from start time 0 with a
tick body that always takes 40 ms (longer than the frame interval). -/
theorem runPacer_deadline_spacing_witness :
    (runPacer 60 0 (fun _ => 40000000) 2).2 = 0 + 2 * frameDurationNs 60 :=
  (runPacer_deadline_spacing 60 0 2 (fun _ => 40000000) (by decide) (by decide)).1

/-! ### Claims about configuration loading -/

/-- C8 (counterexample): the claim says `load_settings` stores the `kbps`
field multiplied by 1000 as the internal bitrate for every successfully
parsed configuration. The configuration with `kbps = 2147484` parses
successfully, but `2147484 * 1000 = 2147484000` exceeds `i32::MAX`, so the
`as i32` cast saturates and the stored bitrate is `2147483647`, not
`kbps * 1000`. -/
theorem load_settings_kbps_saturates :
    load_settings cfgBig
      = Except.ok { key := Keycode.F10, fps := 60, kbps := 2147483647,
                    time := 10, encoder := 0 }
  ∧ (2147483647 : Int) ≠ 2147484 * 1000 := by
  exact ⟨rfl, by decide⟩

/-- C8 (amended): for every successfully parsed configuration,
`load_settings` stores the `kbps` field multiplied by 1000 and saturated to
the `i32` range as the internal bitrate, and stores the `encoder` field
clamped into the range 0 to 3; the scenario configuration
`{time:10, fps:60, kbps:10000, key:"F10", encoder:0}` loads without error
and yields segment duration 10, rate 60, bitrate 10,000,000 bits/s,
encoder 0, and hotkey F10. -/
theorem load_settings_fields (c : RawConfig) (s : Settings)
    (h : load_settings c = Except.ok s) :
    (∀ kb, c.kbps = some kb → s.kbps = i32sat (kb * 1000))
  ∧ (∀ e, c.encoder = some e → s.encoder = min 3 (max 0 e))
  ∧ (0 ≤ s.encoder ∧ s.encoder ≤ 3)
  ∧ load_settings cfgGood
      = Except.ok { key := Keycode.F10, fps := 60, kbps := 10000000,
                    time := 10, encoder := 0 } := by
  obtain ⟨t, f, kb, e, k⟩ := c
  cases t with
  | none => simp [load_settings] at h
  | some tv =>
  cases f with
  | none => simp [load_settings] at h
  | some fv =>
  cases kb with
  | none => simp [load_settings] at h
  | some kbv =>
  cases e with
  | none => simp [load_settings] at h
  | some ev =>
  cases k with
  | none => simp [load_settings] at h
  | some kv =>
  cases hk : keycodeFromStr kv with
  | none => simp [load_settings, hk] at h
  | some key =>
      simp only [load_settings, hk, Except.ok.injEq] at h
      subst h
      refine ⟨?_, ?_, ?_, rfl⟩
      · intro kb hkb
        injection hkb with hkb
        subst hkb
        rfl
      · intro e he
        injection he with he
        subst he
        rfl
      · constructor
        · exact le_min (by norm_num) (le_max_left 0 ev)
        · exact min_le_left 3 (max 0 ev)

/-- C8 (witness): the amended theorem at the scenario configuration. -/
theorem load_settings_fields_witness :
    ({ key := Keycode.F10, fps := 60, kbps := 10000000,
       time := 10, encoder := 0 } : Settings).kbps = i32sat (10000 * 1000) :=
  (load_settings_fields cfgGood
      { key := Keycode.F10, fps := 60, kbps := 10000000,
        time := 10, encoder := 0 } rfl).1 10000 rfl

end Moment
